import Mathlib

/-!
Shallow embedding of the simulation core of `app1.py` (Samurai Runner).

Machine reals (Python floats) are modelled as rationals; Python `int()`
truncation is `pyint`; Python `min` is `pymin`.  Rendering, audio and asset
loading are out of scope: audio cues are recorded as booleans/counters and
the pixel-mask collision outcome is an oracle parameter `collides`, since
the claims quantify over frames in which a confirmed mask collision occurs.
-/

set_option maxRecDepth 100000

/-- Python `min(a, b)` on rationals. -/
def pymin (a b : ℚ) : ℚ := if a ≤ b then a else b

/-- Python `int()` truncation toward zero: T-division of the reduced
numerator by the denominator. -/
def pyint (q : ℚ) : ℤ := q.num.tdiv q.den

namespace Config

def SCREEN_WIDTH : ℤ := 960
def GRAVITY : ℚ := 13/20
def JUMP_FORCE : ℚ := -25/2
def DOUBLE_JUMP_FORCE : ℚ := -10
def GROUND_Y : ℚ := 420
def START_SPEED : ℚ := 6
def MAX_SPEED : ℚ := 16
def SPEED_INCREMENT : ℚ := 3/2000
def SCORE_PER_FRAME : ℚ := 1/5

end Config

/-- Game-loop states (`self.state` in `Game`). -/
inductive GState
  | MENU
  | PLAYING
  | GAMEOVER
deriving DecidableEq, Repr

/-- Effects returned by `Samurai.jump`. -/
inductive Effect
  | dust
  | sparkle
deriving DecidableEq, Repr

/-- Power-up ticket types. -/
inductive PType
  | BLUE
  | YELLOW
deriving DecidableEq, Repr

/-- Obstacle type tags.  `dragon` carries the per-color `speed_mul`
(red 1.0, green 0.95, black 1.0); `folderDragon` has `speed_mul = 0.95`. -/
inductive OType
  | rock
  | barrel
  | bamboo
  | boulder
  | folder
  | dragon (speed_mul : ℚ)
  | folderDragon
deriving DecidableEq, Repr

/-- Per-type horizontal motion multiplier applied in `Obstacle.update`. -/
def OType.speedFactor : OType → ℚ
  | .boulder => 13/10
  | .dragon m => m
  | .folderDragon => 19/20
  | _ => 1

/-- The collision-relevant state of an `Obstacle`: continuous x, type tag
and the integer bounding rect. -/
structure Obstacle where
  x : ℚ
  otype : OType
  rectX : ℤ
  rectY : ℤ
  rectW : ℤ
  rectH : ℤ
deriving DecidableEq, Repr

/-- `Obstacle.update(speed)`: subtract `speed * multiplier` from x and
resync `rect.x = int(self.x)` (animation frames are rendering-only). -/
def Obstacle.update (o : Obstacle) (speed : ℚ) : Obstacle :=
  let x1 := o.x - speed * o.otype.speedFactor
  { o with x := x1, rectX := pyint x1 }

/-- Player state (`Samurai`). -/
structure Samurai where
  x : ℚ
  y : ℚ
  vel_y : ℚ
  width : ℚ
  height : ℚ
  is_jumping : Bool
  can_double_jump : Bool
  is_ducking : Bool
  run_frame : ℕ
  anim_timer : ℕ
  dash_timer : ℕ
  tornado_ready : Bool
  double_jump_item : Bool
  jump_anim_t : ℕ
deriving DecidableEq, Repr

/-- `Samurai.reset()`. -/
def Samurai.reset : Samurai :=
  { x := 100, y := Config.GROUND_Y, vel_y := 0, width := 48, height := 72,
    is_jumping := false, can_double_jump := false, is_ducking := false,
    run_frame := 0, anim_timer := 0, dash_timer := 0, tornado_ready := false,
    double_jump_item := false, jump_anim_t := 0 }

/-- The opening block of `Samurai.jump()`: cancel an active duck, restoring
standing height 90 and the standing position. -/
def Samurai.duckCancel (s : Samurai) : Samurai :=
  if s.is_ducking then
    { s with is_ducking := false, height := 90, y := Config.GROUND_Y - 90 }
  else s

/-- `Samurai.jump()`: cancel an active duck first, then either the primary
jump (returns the dust effect), the double jump (sparkle), or a no-op. -/
def Samurai.jump (s : Samurai) : Samurai × Option Effect :=
  if s.duckCancel.is_jumping = false then
    ({ s.duckCancel with
       vel_y := Config.JUMP_FORCE,
       is_jumping := true,
       jump_anim_t := 0 },
     some Effect.dust)
  else if s.duckCancel.double_jump_item && s.duckCancel.can_double_jump then
    ({ s.duckCancel with
       vel_y := Config.DOUBLE_JUMP_FORCE,
       can_double_jump := false,
       double_jump_item := false },
     some Effect.sparkle)
  else (s.duckCancel, none)

/-- `Samurai.duck(is_ducking)`: only honored while not jumping. -/
def Samurai.duck (s : Samurai) (d : Bool) : Samurai :=
  if s.is_jumping = false then
    if d then { s with is_ducking := d, height := 50, y := Config.GROUND_Y - 50 }
    else { s with is_ducking := d, height := 90, y := Config.GROUND_Y - 90 }
  else s

/-- `Samurai.activate_powerup(p_type)`. -/
def Samurai.activate_powerup (s : Samurai) (p : PType) : Samurai :=
  match p with
  | .BLUE => { s with dash_timer := 300 }
  | .YELLOW => { s with tornado_ready := true }

/-- `Samurai.update()`: gravity, integration, ground clamp, timer ticks,
run animation. -/
def Samurai.update (s : Samurai) : Samurai :=
  let s1 := { s with vel_y := s.vel_y + Config.GRAVITY }
  let s2 := { s1 with y := s1.y + s1.vel_y }
  let s3 := if s2.y ≥ Config.GROUND_Y - s2.height then
              { s2 with y := Config.GROUND_Y - s2.height, vel_y := 0,
                        is_jumping := false, can_double_jump := true }
            else s2
  let s4 := if 0 < s3.dash_timer then { s3 with dash_timer := s3.dash_timer - 1 } else s3
  let s5 := if s4.is_jumping then { s4 with jump_anim_t := s4.jump_anim_t + 1 } else s4
  let s6 := { s5 with anim_timer := s5.anim_timer + 1 }
  if s6.anim_timer ≥ 5 then { s6 with run_frame := (s6.run_frame + 1) % 2, anim_timer := 0 }
  else s6

/-- Remove the first element satisfying `p` (Python `list.remove(target)`
where `target` is the first element satisfying `p`). -/
def removeFirst {α : Type} (p : α → Bool) : List α → List α
  | [] => []
  | a :: l => if p a then l else a :: removeFirst p l

/-- The "ahead of the player" filter of the tornado pre-emptive destroy:
`o.x > self.samurai.x + 20`. -/
def aheadP (sam : Samurai) (o : Obstacle) : Bool := decide (sam.x + 20 < o.x)

/-- Step 3.5 of `Game.update`: if tornado is ready and some obstacle lies
ahead, destroy the first such obstacle, award 50 points and consume the
charge.  Returns (samurai, obstacles, score, number of destroys). -/
def preemptiveStep (sam : Samurai) (obstacles : List Obstacle) (score : ℚ) :
    Samurai × List Obstacle × ℚ × ℕ :=
  if sam.tornado_ready && !obstacles.isEmpty then
    match obstacles.find? (aheadP sam) with
    | some _ =>
        ({ sam with tornado_ready := false },
         removeFirst (aheadP sam) obstacles, score + 50, 1)
    | none => (sam, obstacles, score, 0)
  else (sam, obstacles, score, 0)

/-- State threaded through the obstacle-collision loop of `Game.update`. -/
structure CollState where
  live : List Obstacle
  sam : Samurai
  score : ℚ
  gstate : GState
  destroys : ℕ
deriving DecidableEq, Repr

/-- One iteration of the obstacle-collision loop: skip fully off-screen
obstacles, then on a confirmed pixel-mask collision (`collides obs`) apply
tornado destroy / dash pass-through / GAMEOVER, in that precedence. -/
def collisionStep (collides : Obstacle → Bool) (obs : Obstacle) (st : CollState) :
    CollState :=
  if obs.rectX + obs.rectW ≤ 0 ∨ Config.SCREEN_WIDTH ≤ obs.rectX then st
  else if collides obs then
    if st.sam.tornado_ready then
      { st with live := removeFirst (fun o => o == obs) st.live,
                score := st.score + 50,
                sam := { st.sam with tornado_ready := false },
                destroys := st.destroys + 1 }
    else if 0 < st.sam.dash_timer then st
    else { st with gstate := GState.GAMEOVER }
  else st

/-- The obstacle-collision loop, iterating over a snapshot of the list. -/
def collisionLoop (collides : Obstacle → Bool) :
    List Obstacle → CollState → CollState
  | [], st => st
  | o :: rest, st => collisionLoop collides rest (collisionStep collides o st)

/-- The score-milestone audio-cue condition checked every `Game.update`:
`int(score) % 100 == 0 and int(score) > 0`. -/
def milestoneCue (s : ℚ) : Bool := decide (pyint s % 100 = 0) && decide (0 < pyint s)

/-- Obstacle type tags as recorded in `last_spawn_type`. -/
inductive SpawnTag
  | rock
  | barrel
  | bamboo
  | dragon
  | boulder
deriving DecidableEq, Repr

/-- Spawn bookkeeping fields of `Game` used by the default weighted mix. -/
structure SpawnBook where
  last_spawn_type : Option SpawnTag
  last_bamboo_frame : ℤ
  last_bamboo_x : ℚ
deriving DecidableEq, Repr

/-- The fully procedural weighted obstacle mix of `Game.spawn_logic`
(the trailing `else` branch): `r` is the `random.random()` draw,
`frame_count`/`spawn_x` come from the caller, `boulderAvail` is the
`boulder_image_available` asset flag.  Returns the spawned type tag and the
updated bookkeeping. -/
def defaultSpawn (r : ℚ) (frame_count : ℤ) (spawn_x : ℚ) (boulderAvail : Bool)
    (book : SpawnBook) : SpawnTag × SpawnBook :=
  if r < 1/4 then
    (SpawnTag.rock, { book with last_spawn_type := some SpawnTag.rock })
  else if r < 9/20 then
    (SpawnTag.barrel, { book with last_spawn_type := some SpawnTag.barrel })
  else if r < 13/20 ∧ book.last_spawn_type ≠ some SpawnTag.bamboo then
    let can_bamboo_time := 240 < frame_count - book.last_bamboo_frame
    let can_bamboo_dist := 300 < spawn_x - book.last_bamboo_x
    if can_bamboo_time ∧ can_bamboo_dist then
      (SpawnTag.bamboo,
       { last_spawn_type := some SpawnTag.bamboo,
         last_bamboo_frame := frame_count, last_bamboo_x := spawn_x })
    else
      (SpawnTag.rock, { book with last_spawn_type := some SpawnTag.rock })
  else if r < 9/10 then
    (SpawnTag.dragon, { book with last_spawn_type := some SpawnTag.dragon })
  else if boulderAvail then
    (SpawnTag.boulder, { book with last_spawn_type := some SpawnTag.boulder })
  else
    (SpawnTag.rock, { book with last_spawn_type := some SpawnTag.rock })

/-- The simulation-relevant state of `Game`, plus per-frame outputs
(`cueFired`, `preDestroys`, `collDestroys`) recording the audio cue and the
tornado destroys of the last `update`. -/
structure Game where
  samurai : Samurai
  obstacles : List Obstacle
  score : ℚ
  speed : ℚ
  frame_count : ℕ
  gstate : GState
  cueFired : Bool
  preDestroys : ℕ
  collDestroys : ℕ
deriving DecidableEq, Repr

/-- `Game.reset_game()` together with the initial `MENU` state. -/
def Game.reset : Game :=
  { samurai := Samurai.reset, obstacles := [], score := 0,
    speed := Config.START_SPEED, frame_count := 0, gstate := GState.MENU,
    cueFired := false, preDestroys := 0, collDestroys := 0 }

/-- The effective scroll speed of a frame: the ramped speed
`min(MAX_SPEED, speed + SPEED_INCREMENT)` boosted 25% while dash is
active. -/
def Game.effSpeed (g : Game) : ℚ :=
  pymin Config.MAX_SPEED (g.speed + Config.SPEED_INCREMENT) *
    (if 0 < g.samurai.dash_timer then 5/4 else 1)

/-- The obstacle list after this frame's spawn (oracle `spawned`, appended
by `spawn_logic`), motion, and the `x > -200` pruning. -/
def Game.movedObstacles (g : Game) (spawned : Option Obstacle) : List Obstacle :=
  ((g.obstacles ++ spawned.toList).map (fun o => o.update g.effSpeed)).filter
    (fun o => decide ((-200 : ℚ) < o.x))

/-- `Game.update()`: score and cue, speed ramp, effective speed, player
physics, spawning (obstacle appended by the oracle `spawned`), obstacle
motion and pruning, tornado pre-emptive destroy, power-up pickups
(`pickups` is the list of tickets collected this frame), then the
obstacle-collision loop driven by the mask oracle `collides`. -/
def Game.update (g : Game) (collides : Obstacle → Bool) (pickups : List PType)
    (spawned : Option Obstacle) : Game :=
  let score1 := g.score + Config.SCORE_PER_FRAME
  let pre := preemptiveStep g.samurai.update (g.movedObstacles spawned) score1
  let cst := collisionLoop collides pre.2.1
    { live := pre.2.1, sam := pickups.foldl Samurai.activate_powerup pre.1,
      score := pre.2.2.1, gstate := g.gstate, destroys := 0 }
  { samurai := cst.sam, obstacles := cst.live, score := cst.score,
    speed := pymin Config.MAX_SPEED (g.speed + Config.SPEED_INCREMENT),
    frame_count := g.frame_count + 1, gstate := cst.gstate,
    cueFired := milestoneCue score1,
    preDestroys := pre.2.2.2, collDestroys := cst.destroys }

/-- One iteration of `Game.run`'s main loop (events aside): `update` runs
only while the state is PLAYING. -/
def Game.tick (g : Game) (collides : Obstacle → Bool) (pickups : List PType)
    (spawned : Option Obstacle) : Game :=
  if g.gstate = GState.PLAYING then g.update collides pickups spawned else g

/-- The player-facing operations reachable from the event loop. -/
inductive Op
  | jump
  | duckOn
  | duckOff
  | physics
  | powerBlue
  | powerYellow
deriving DecidableEq, Repr

/-- Apply one operation to the player. -/
def applyOp (s : Samurai) : Op → Samurai
  | .jump => (s.jump).1
  | .duckOn => s.duck true
  | .duckOff => s.duck false
  | .physics => s.update
  | .powerBlue => s.activate_powerup PType.BLUE
  | .powerYellow => s.activate_powerup PType.YELLOW

/-- The player state after a sequence of operations from reset: the
reachable states of a session. -/
def runOps (ops : List Op) : Samurai := ops.foldl applyOp Samurai.reset

/-- A player holding the tornado charge (concrete test state). -/
def samT : Samurai := { Samurai.reset with tornado_ready := true }

/-- A concrete rock at x = 200. -/
def obA : Obstacle :=
  { x := 200, otype := OType.rock, rectX := 200, rectY := 384, rectW := 36, rectH := 36 }

/-- A concrete barrel at x = 300. -/
def obB : Obstacle :=
  { x := 300, otype := OType.barrel, rectX := 300, rectY := 364, rectW := 56, rectH := 56 }

/-- A concrete barrel freshly spawned at the right screen edge x = 960. -/
def obEdge : Obstacle :=
  { x := 960, otype := OType.barrel, rectX := 960, rectY := 364, rectW := 56, rectH := 56 }

/-! ## Helper lemmas -/

/-- `Samurai.update` never changes the tornado charge. -/
lemma Samurai.update_tornado_ready (s : Samurai) :
    (s.update).tornado_ready = s.tornado_ready := by
  unfold Samurai.update
  dsimp only
  repeat' split
  all_goals rfl

/-- Activating power-ups other than the tornado ticket never changes the
tornado charge. -/
lemma foldl_activate_tornado_ready (p : List PType) (s : Samurai)
    (hp : PType.YELLOW ∉ p) :
    (p.foldl Samurai.activate_powerup s).tornado_ready = s.tornado_ready := by
  induction p generalizing s with
  | nil => rfl
  | cons a t ih =>
      rcases a with _ | _
      · have ht : PType.YELLOW ∉ t := fun h => hp (List.mem_cons_of_mem _ h)
        simp only [List.foldl_cons]
        rw [ih _ ht]
        rfl
      · exact absurd (List.mem_cons_self _ _) hp

/-- Characterization of the pre-emptive tornado step: either it does
nothing, or it fires exactly once, requiring and consuming the charge. -/
lemma preemptiveStep_cases (sam : Samurai) (obstacles : List Obstacle) (score : ℚ) :
    (preemptiveStep sam obstacles score = (sam, obstacles, score, 0)) ∨
    (sam.tornado_ready = true ∧
      (preemptiveStep sam obstacles score).1.tornado_ready = false ∧
      (preemptiveStep sam obstacles score).2.2.2 = 1 ∧
      (preemptiveStep sam obstacles score).2.2.1 = score + 50) := by
  unfold preemptiveStep
  split
  · rename_i hguard
    simp only [Bool.and_eq_true, Bool.not_eq_true'] at hguard
    split
    · exact Or.inr ⟨hguard.1, rfl, rfl, rfl⟩
    · exact Or.inl rfl
  · exact Or.inl rfl

/-- A single collision-loop iteration leaves the state unchanged, or fires
the tornado branch (destroy count up by one, charge required and consumed),
or only sets GAMEOVER. -/
lemma collisionStep_cases (c : Obstacle → Bool) (o : Obstacle) (st : CollState) :
    collisionStep c o st = st ∨
    (st.sam.tornado_ready = true ∧
      (collisionStep c o st).sam.tornado_ready = false ∧
      (collisionStep c o st).destroys = st.destroys + 1 ∧
      (collisionStep c o st).score = st.score + 50 ∧
      (collisionStep c o st).gstate = st.gstate) ∨
    (collisionStep c o st =
      { st with gstate := GState.GAMEOVER } ∧
      st.sam.tornado_ready = false ∧ st.sam.dash_timer = 0) := by
  unfold collisionStep
  split
  · exact Or.inl rfl
  split
  · split
    · rename_i hready
      exact Or.inr (Or.inl ⟨hready, rfl, rfl, rfl, rfl⟩)
    · split
      · exact Or.inl rfl
      · rename_i hready hdash
        refine Or.inr (Or.inr ⟨rfl, by simpa using hready, by omega⟩)
  · exact Or.inl rfl

/-- Accounting invariant of the collision loop: the tornado either stays
untouched, or fires exactly once (with the 50-point bonus), consuming the
charge; the score always moves in lockstep with the destroy counter. -/
lemma collisionLoop_accounting (c : Obstacle → Bool) (l : List Obstacle)
    (st : CollState) :
    ((collisionLoop c l st).destroys = st.destroys ∧
      (collisionLoop c l st).score = st.score ∧
      (collisionLoop c l st).sam.tornado_ready = st.sam.tornado_ready) ∨
    (st.sam.tornado_ready = true ∧
      (collisionLoop c l st).destroys = st.destroys + 1 ∧
      (collisionLoop c l st).score = st.score + 50 ∧
      (collisionLoop c l st).sam.tornado_ready = false) := by
  induction l generalizing st with
  | nil => exact Or.inl ⟨rfl, rfl, rfl⟩
  | cons o rest ih =>
      show _ ∨ _
      have hstep := collisionStep_cases c o st
      rcases hstep with heq | hfire | hover
      · rw [collisionLoop, heq]
        exact ih st
      · obtain ⟨hready, hready', hd, hs, _⟩ := hfire
        rcases ih (collisionStep c o st) with ⟨ihd, ihs, ihr⟩ | ⟨ihready, _, _, _⟩
        · exact Or.inr ⟨hready, by rw [collisionLoop] at *; omega,
            by rw [collisionLoop, ihs, hs], by rw [collisionLoop, ihr, hready']⟩
        · rw [hready'] at ihready; exact absurd ihready (by simp)
      · obtain ⟨heq, hready, _⟩ := hover
        rcases ih (collisionStep c o st) with ⟨ihd, ihs, ihr⟩ | ⟨ihready, _, _, _⟩
        · refine Or.inl ⟨?_, ?_, ?_⟩
          · rw [collisionLoop, ihd, heq]
          · rw [collisionLoop, ihs, heq]
          · rw [collisionLoop, ihr, heq, hready]
        · rw [heq] at ihready
          exact absurd ihready (by simp [hready])

/-- Tornado/score accounting of the phase of `Game.update` that runs after
the entity updates: pre-emptive destroy, power-up pickups, collision loop. -/
lemma framePhase_accounting (c : Obstacle → Bool) (p : List PType)
    (hp : PType.YELLOW ∉ p) (sam : Samurai) (obs : List Obstacle) (score : ℚ)
    (gs : GState) :
    ((preemptiveStep sam obs score).2.2.2 +
        (collisionLoop c (preemptiveStep sam obs score).2.1
          { live := (preemptiveStep sam obs score).2.1,
            sam := p.foldl Samurai.activate_powerup (preemptiveStep sam obs score).1,
            score := (preemptiveStep sam obs score).2.2.1,
            gstate := gs, destroys := 0 }).destroys ≤ 1)
    ∧ (sam.tornado_ready = false →
        (preemptiveStep sam obs score).2.2.2 +
          (collisionLoop c (preemptiveStep sam obs score).2.1
            { live := (preemptiveStep sam obs score).2.1,
              sam := p.foldl Samurai.activate_powerup (preemptiveStep sam obs score).1,
              score := (preemptiveStep sam obs score).2.2.1,
              gstate := gs, destroys := 0 }).destroys = 0
        ∧ (collisionLoop c (preemptiveStep sam obs score).2.1
            { live := (preemptiveStep sam obs score).2.1,
              sam := p.foldl Samurai.activate_powerup (preemptiveStep sam obs score).1,
              score := (preemptiveStep sam obs score).2.2.1,
              gstate := gs, destroys := 0 }).sam.tornado_ready = false)
    ∧ (1 ≤ (preemptiveStep sam obs score).2.2.2 +
          (collisionLoop c (preemptiveStep sam obs score).2.1
            { live := (preemptiveStep sam obs score).2.1,
              sam := p.foldl Samurai.activate_powerup (preemptiveStep sam obs score).1,
              score := (preemptiveStep sam obs score).2.2.1,
              gstate := gs, destroys := 0 }).destroys →
        (collisionLoop c (preemptiveStep sam obs score).2.1
          { live := (preemptiveStep sam obs score).2.1,
            sam := p.foldl Samurai.activate_powerup (preemptiveStep sam obs score).1,
            score := (preemptiveStep sam obs score).2.2.1,
            gstate := gs, destroys := 0 }).sam.tornado_ready = false)
    ∧ ((preemptiveStep sam obs score).2.2.2 = 1 →
        (collisionLoop c (preemptiveStep sam obs score).2.1
          { live := (preemptiveStep sam obs score).2.1,
            sam := p.foldl Samurai.activate_powerup (preemptiveStep sam obs score).1,
            score := (preemptiveStep sam obs score).2.2.1,
            gstate := gs, destroys := 0 }).destroys = 0) := by
  set pre := preemptiveStep sam obs score with hpre
  set st0 : CollState :=
    { live := pre.2.1, sam := p.foldl Samurai.activate_powerup pre.1,
      score := pre.2.2.1, gstate := gs, destroys := 0 } with hst0
  have hready0 : st0.sam.tornado_ready = pre.1.tornado_ready :=
    foldl_activate_tornado_ready p pre.1 hp
  rcases preemptiveStep_cases sam obs score with hA | ⟨hstrue, hcons, hN, _⟩
  · have hsam : pre.1 = sam := by rw [hpre, hA]
    have hN0 : pre.2.2.2 = 0 := by rw [hpre, hA]
    rcases collisionLoop_accounting c pre.2.1 st0 with ⟨cd, _, cr⟩ | ⟨crt, cd, _, cr⟩
    · have hd : (collisionLoop c pre.2.1 st0).destroys = 0 := by
        rw [cd]
      refine ⟨by omega, fun h0 => ⟨by omega, ?_⟩, fun h1 => ?_, fun h1 => by omega⟩
      · rw [cr, hready0, hsam, h0]
      · exfalso; omega
    · have hd : (collisionLoop c pre.2.1 st0).destroys = 1 := by
        rw [cd]
      have hst : sam.tornado_ready = true := by
        rw [hready0, hsam] at crt; exact crt
      refine ⟨by omega, fun h0 => ?_, fun _ => cr, fun h1 => by omega⟩
      · rw [hst] at h0; exact absurd h0 (by simp)
  · rw [← hpre] at hcons hN
    have hr0 : st0.sam.tornado_ready = false := by rw [hready0, hcons]
    rcases collisionLoop_accounting c pre.2.1 st0 with ⟨cd, _, cr⟩ | ⟨crt, _, _, _⟩
    · have hd : (collisionLoop c pre.2.1 st0).destroys = 0 := by rw [cd]
      refine ⟨by omega, fun h0 => ?_, fun _ => by rw [cr, hr0], fun _ => hd⟩
      · rw [hstrue] at h0; exact absurd h0 (by simp)
    · rw [hr0] at crt; exact absurd crt (by simp)

/-- Score accounting of the same phase: the final score is the input score
plus 50 per tornado destroy. -/
lemma framePhase_score (c : Obstacle → Bool) (p : List PType) (sam : Samurai)
    (obs : List Obstacle) (score : ℚ) (gs : GState) :
    (collisionLoop c (preemptiveStep sam obs score).2.1
      { live := (preemptiveStep sam obs score).2.1,
        sam := p.foldl Samurai.activate_powerup (preemptiveStep sam obs score).1,
        score := (preemptiveStep sam obs score).2.2.1,
        gstate := gs, destroys := 0 }).score =
    score + 50 * (((preemptiveStep sam obs score).2.2.2 : ℚ) +
      ((collisionLoop c (preemptiveStep sam obs score).2.1
        { live := (preemptiveStep sam obs score).2.1,
          sam := p.foldl Samurai.activate_powerup (preemptiveStep sam obs score).1,
          score := (preemptiveStep sam obs score).2.2.1,
          gstate := gs, destroys := 0 }).destroys : ℚ)) := by
  set pre := preemptiveStep sam obs score with hpre
  set st0 : CollState :=
    { live := pre.2.1, sam := p.foldl Samurai.activate_powerup pre.1,
      score := pre.2.2.1, gstate := gs, destroys := 0 } with hst0
  have hsc0 : st0.score = pre.2.2.1 := rfl
  rcases preemptiveStep_cases sam obs score with hA | ⟨_, _, hN, hsc⟩
  · have hN0 : pre.2.2.2 = 0 := by rw [hpre, hA]
    have hs0 : pre.2.2.1 = score := by rw [hpre, hA]
    rcases collisionLoop_accounting c pre.2.1 st0 with ⟨cd, cs, _⟩ | ⟨_, cd, cs, _⟩
    · rw [cs, hsc0, hs0, hN0, cd]
      push_cast
      ring
    · rw [cs, hsc0, hs0, hN0, cd]
      push_cast
      ring
  · rw [← hpre] at hN hsc
    rcases collisionLoop_accounting c pre.2.1 st0 with ⟨cd, cs, _⟩ | ⟨_, cd, cs, _⟩
    · rw [cs, hsc0, hsc, hN, cd]
      push_cast
      ring
    · rw [cs, hsc0, hsc, hN, cd]
      push_cast
      ring

/-! ## Claim theorems -/

/-- C1: in a PLAYING frame, a confirmed pixel-mask collision between the
player and any obstacle while the dash-timer is positive (and the tornado
charge is not ready) leaves the whole collision-loop state unchanged — no
GAMEOVER transition, no score change, no obstacle removal, and the
dash-timer itself is untouched by the hit. -/
theorem c1_dash_collision_noop (c : Obstacle → Bool) (l : List Obstacle)
    (st : CollState) (hready : st.sam.tornado_ready = false)
    (hdash : 0 < st.sam.dash_timer) :
    collisionLoop c l st = st := by
  induction l with
  | nil => rfl
  | cons o rest ih =>
      have hstep : collisionStep c o st = st := by
        unfold collisionStep
        split
        · rfl
        · split
          · simp [hready, hdash]
          · rfl
      rw [collisionLoop, hstep]
      exact ih

/-- Witness for C1: a concrete frame with an on-screen rock colliding
(oracle reports a mask overlap) against a dashing player. -/
theorem c1_dash_collision_noop_witness :
    collisionLoop (fun _ => true)
      [{ x := 120, otype := OType.rock, rectX := 120, rectY := 384, rectW := 36, rectH := 36 }]
      { live := [{ x := 120, otype := OType.rock, rectX := 120, rectY := 384, rectW := 36, rectH := 36 }],
        sam := { Samurai.reset with dash_timer := 300 },
        score := 0, gstate := GState.PLAYING, destroys := 0 } =
      { live := [{ x := 120, otype := OType.rock, rectX := 120, rectY := 384, rectW := 36, rectH := 36 }],
        sam := { Samurai.reset with dash_timer := 300 },
        score := 0, gstate := GState.PLAYING, destroys := 0 } :=
  c1_dash_collision_noop _ _ _ rfl (by decide)

/-- C2: over one `Game.update` frame with no new tornado activation among
the pickups, the tornado charge is consumed at most once — the pre-emptive
destroy and the collision-triggered destroy together fire at most once,
a frame starting without the charge fires neither, any consumption leaves
the charge off, and if the pre-emptive destroy fired the collision branch
did not. -/
theorem c2_tornado_single_consumption (g : Game) (c : Obstacle → Bool)
    (p : List PType) (sp : Option Obstacle) (hp : PType.YELLOW ∉ p) :
    (g.update c p sp).preDestroys + (g.update c p sp).collDestroys ≤ 1
    ∧ (g.samurai.tornado_ready = false →
        (g.update c p sp).preDestroys + (g.update c p sp).collDestroys = 0
        ∧ (g.update c p sp).samurai.tornado_ready = false)
    ∧ (1 ≤ (g.update c p sp).preDestroys + (g.update c p sp).collDestroys →
        (g.update c p sp).samurai.tornado_ready = false)
    ∧ ((g.update c p sp).preDestroys = 1 → (g.update c p sp).collDestroys = 0) := by
  have key := framePhase_accounting c p hp g.samurai.update
      (g.movedObstacles sp) (g.score + Config.SCORE_PER_FRAME) g.gstate
  have hb := Samurai.update_tornado_ready g.samurai
  refine ⟨key.1, ?_, key.2.2.1, key.2.2.2⟩
  intro h0
  exact key.2.1 (by rw [hb]; exact h0)

/-- Witness for C2: a concrete PLAYING frame holding the charge with one
obstacle ahead; the pre-emptive destroy fires exactly once and consumes
the charge. -/
theorem c2_tornado_single_consumption_witness :
    (Game.update
      { Game.reset with
        gstate := GState.PLAYING,
        samurai := { Samurai.reset with tornado_ready := true },
        obstacles := [{ x := 500, otype := OType.rock, rectX := 500, rectY := 384,
                        rectW := 36, rectH := 36 }] }
      (fun _ => false) [] none).preDestroys +
    (Game.update
      { Game.reset with
        gstate := GState.PLAYING,
        samurai := { Samurai.reset with tornado_ready := true },
        obstacles := [{ x := 500, otype := OType.rock, rectX := 500, rectY := 384,
                        rectW := 36, rectH := 36 }] }
      (fun _ => false) [] none).collDestroys ≤ 1
    ∧ (Game.update
      { Game.reset with
        gstate := GState.PLAYING,
        samurai := { Samurai.reset with tornado_ready := true },
        obstacles := [{ x := 500, otype := OType.rock, rectX := 500, rectY := 384,
                        rectW := 36, rectH := 36 }] }
      (fun _ => false) [] none).samurai.tornado_ready = false :=
  ⟨(c2_tornado_single_consumption _ _ _ _ (by simp)).1,
   (c2_tornado_single_consumption _ _ _ _ (by simp)).2.2.1
     (by with_unfolding_all decide)⟩

/-- C4: on a PLAYING tick the score grows by exactly the per-frame
increment (0.2) plus 50 for each obstacle destroyed by the tornado this
frame, and by nothing else; when the state is not PLAYING (GAMEOVER or
MENU) `Game.tick` leaves the score unchanged. -/
theorem c4_score_accounting :
    (∀ (g : Game) (c : Obstacle → Bool) (p : List PType) (sp : Option Obstacle),
      g.gstate = GState.PLAYING →
      (g.tick c p sp).score = g.score + Config.SCORE_PER_FRAME +
        50 * (((g.tick c p sp).preDestroys : ℚ) + ((g.tick c p sp).collDestroys : ℚ)))
    ∧ (∀ (g : Game) (c : Obstacle → Bool) (p : List PType) (sp : Option Obstacle),
      g.gstate ≠ GState.PLAYING → (g.tick c p sp).score = g.score) := by
  constructor
  · intro g c p sp h
    have htick : g.tick c p sp = g.update c p sp := by
      unfold Game.tick
      rw [if_pos h]
    rw [htick]
    have hs := framePhase_score c p g.samurai.update (g.movedObstacles sp)
      (g.score + Config.SCORE_PER_FRAME) g.gstate
    exact hs
  · intro g c p sp h
    unfold Game.tick
    rw [if_neg h]

/-- Witness for C4: the incremental score law at a concrete PLAYING frame,
and score frozen at a concrete GAMEOVER frame. -/
theorem c4_score_accounting_witness :
    ((Game.tick { Game.reset with gstate := GState.PLAYING } (fun _ => false) [] none).score =
      (0 : ℚ) + Config.SCORE_PER_FRAME +
        50 * (((Game.tick { Game.reset with gstate := GState.PLAYING } (fun _ => false) [] none).preDestroys : ℚ) +
          ((Game.tick { Game.reset with gstate := GState.PLAYING } (fun _ => false) [] none).collDestroys : ℚ)))
    ∧ (Game.tick { Game.reset with
          gstate := GState.GAMEOVER,
          score := 77 }
        (fun _ => false) [] none).score = 77 :=
  ⟨c4_score_accounting.1 _ _ _ _ rfl, c4_score_accounting.2 _ _ _ _ (by decide)⟩

/-- If the charge is ready and some obstacle is ahead, the pre-emptive step
fires: charge consumed, first ahead obstacle removed, 50 points awarded. -/
lemma preemptiveStep_fires (sam : Samurai) (obs : List Obstacle) (score : ℚ)
    (t : Obstacle) (hready : sam.tornado_ready = true)
    (hfind : obs.find? (aheadP sam) = some t) :
    preemptiveStep sam obs score =
      ({ sam with tornado_ready := false },
       removeFirst (aheadP sam) obs, score + 50, 1) := by
  rcases obs with _ | ⟨a, l⟩
  · simp at hfind
  · unfold preemptiveStep
    rw [hready, hfind]
    simp

/-- In a list sorted by x, the first element satisfying `p` has minimal x
among all elements satisfying `p`. -/
lemma find?_first_minimal (p : Obstacle → Bool) (l : List Obstacle) (t : Obstacle)
    (hfind : l.find? p = some t)
    (hsorted : l.Pairwise (fun a b => a.x ≤ b.x)) :
    ∀ o ∈ l, p o = true → t.x ≤ o.x := by
  induction l with
  | nil => simp at hfind
  | cons a l ih =>
      intro o ho hpo
      rcases hpa : p a with _ | _
      · rw [List.find?_cons_of_neg _ (by simp [hpa])] at hfind
        rcases List.mem_cons.mp ho with rfl | ho'
        · rw [hpo] at hpa; exact absurd hpa (by simp)
        · exact ih hfind (List.Pairwise.of_cons hsorted) o ho' hpo
      · rw [List.find?_cons_of_pos _ hpa] at hfind
        injection hfind with ht
        subst ht
        rcases List.mem_cons.mp ho with rfl | ho'
        · exact le_refl _
        · exact (List.pairwise_cons.mp hsorted).1 o ho'

/-- C3: in a PLAYING frame with the tornado charge ready and at least one
obstacle ahead of the player, and the live list sorted by x (the spawn
invariant: new obstacles always enter at the right edge), the obstacle the
pre-emptive destroy removes is the nearest ahead obstacle — the one of
minimal x among those with `x > player.x + 20`. -/
theorem c3_preemptive_destroys_nearest (sam : Samurai) (obs : List Obstacle)
    (score : ℚ) (t : Obstacle) (hready : sam.tornado_ready = true)
    (hfind : obs.find? (aheadP sam) = some t)
    (hsorted : obs.Pairwise (fun a b => a.x ≤ b.x)) :
    preemptiveStep sam obs score =
      ({ sam with tornado_ready := false },
       removeFirst (aheadP sam) obs, score + 50, 1)
    ∧ ∀ o ∈ obs, aheadP sam o = true → t.x ≤ o.x :=
  ⟨preemptiveStep_fires sam obs score t hready hfind,
   find?_first_minimal (aheadP sam) obs t hfind hsorted⟩

/-- Witness for C3: two sorted ahead obstacles; the step removes the first
and its x is at most the other's x. -/
theorem c3_preemptive_destroys_nearest_witness :
    preemptiveStep samT [obA, obB] 0 =
      ({ samT with tornado_ready := false },
       removeFirst (aheadP samT) [obA, obB], 0 + 50, 1)
    ∧ obA.x ≤ obB.x :=
  ⟨(c3_preemptive_destroys_nearest samT [obA, obB] 0 obA rfl
      (by with_unfolding_all decide) (by with_unfolding_all decide)).1,
   (c3_preemptive_destroys_nearest samT [obA, obB] 0 obA rfl
      (by with_unfolding_all decide) (by with_unfolding_all decide)).2
     obB (by simp) (by with_unfolding_all decide)⟩

/-- C10: the pre-emptive tornado destroy has no on-screen restriction —
if the first ahead obstacle has `rect.x ≥ SCREEN_WIDTH` (never yet visible,
e.g. freshly spawned at or past the right edge), the charge is still
consumed, the obstacle removed and the 50-point bonus awarded on that same
frame, even though the collision loop would have skipped that obstacle. -/
theorem c10_offscreen_preemptive_destroy (sam : Samurai) (obs : List Obstacle)
    (score : ℚ) (t : Obstacle) (hready : sam.tornado_ready = true)
    (hfind : obs.find? (aheadP sam) = some t)
    (hoff : Config.SCREEN_WIDTH ≤ t.rectX) :
    preemptiveStep sam obs score =
      ({ sam with tornado_ready := false },
       removeFirst (aheadP sam) obs, score + 50, 1)
    ∧ ∀ (c : Obstacle → Bool) (st : CollState), collisionStep c t st = st := by
  refine ⟨preemptiveStep_fires sam obs score t hready hfind, ?_⟩
  intro c st
  unfold collisionStep
  rw [if_pos (Or.inr hoff)]

/-- Witness for C10: a single obstacle freshly spawned at x = 960 (the
right screen edge) is destroyed pre-emptively, while the collision loop
would skip it. -/
theorem c10_offscreen_preemptive_destroy_witness :
    preemptiveStep samT [obEdge] 0 =
      ({ samT with tornado_ready := false },
       removeFirst (aheadP samT) [obEdge], 0 + 50, 1)
    ∧ collisionStep (fun _ => true) obEdge
        { live := [], sam := Samurai.reset, score := 0, gstate := GState.PLAYING, destroys := 0 } =
      { live := [], sam := Samurai.reset, score := 0, gstate := GState.PLAYING, destroys := 0 } :=
  ⟨(c10_offscreen_preemptive_destroy samT [obEdge] 0 obEdge rfl
      (by with_unfolding_all decide) (by decide)).1,
   (c10_offscreen_preemptive_destroy samT [obEdge] 0 obEdge rfl
      (by with_unfolding_all decide) (by decide)).2 _ _⟩

/-- C5 counterexample: starting a PLAYING frame at score 99.8 the cue fires
at the frame where the integer part first reaches 100 (score 100.0), but it
fires AGAIN on the very next frame (score 100.2) — refuting "exactly one
score-milestone cue fires ... one cue per 100 points crossed, not more". -/
theorem c5_milestone_cue_counterexample :
    (Game.update { Game.reset with
        gstate := GState.PLAYING,
        score := 499/5 } (fun _ => false) [] none).score = 100
    ∧ (Game.update { Game.reset with
        gstate := GState.PLAYING,
        score := 499/5 } (fun _ => false) [] none).cueFired = true
    ∧ (Game.update (Game.update { Game.reset with
        gstate := GState.PLAYING,
        score := 499/5 } (fun _ => false) [] none) (fun _ => false) [] none).score = 501/5
    ∧ (Game.update (Game.update { Game.reset with
        gstate := GState.PLAYING,
        score := 499/5 } (fun _ => false) [] none) (fun _ => false) [] none).cueFired = true := by
  refine ⟨?_, ?_, ?_, ?_⟩ <;> with_unfolding_all decide

/-- C5 amended: the milestone cue fires on every PLAYING frame whose
post-increment score has integer part a positive multiple of 100 — so a
crossing at 0.2 points per frame first fires at the frame where the integer
part reaches the multiple, then keeps firing on each frame while the
integer part stays at that multiple (five frames per crossing), rather
than exactly once. -/
theorem c5_amended_cue_every_frame_on_multiple (g : Game) (c : Obstacle → Bool)
    (p : List PType) (sp : Option Obstacle) :
    (g.update c p sp).cueFired = true ↔
      (pyint (g.score + Config.SCORE_PER_FRAME) % 100 = 0
       ∧ 0 < pyint (g.score + Config.SCORE_PER_FRAME)) := by
  have h : (g.update c p sp).cueFired = milestoneCue (g.score + Config.SCORE_PER_FRAME) := rfl
  rw [h]
  unfold milestoneCue
  simp

/-- Witness for C5's amended theorem at the concrete crossing frame. -/
theorem c5_amended_cue_every_frame_on_multiple_witness :
    (Game.update { Game.reset with
        gstate := GState.PLAYING,
        score := 499/5 } (fun _ => false) [] none).cueFired = true :=
  (c5_amended_cue_every_frame_on_multiple { Game.reset with
        gstate := GState.PLAYING,
        score := 499/5 } (fun _ => false) [] none).mpr
    (by with_unfolding_all decide)

/-- C6 counterexample: in the fully procedural mix, when the weighted draw
selects the bamboo bracket (r = 0.5 ∈ [0.45, 0.65)) but the previous spawn
was bamboo, a DRAGON is spawned — not the rock the claim asserts — because
the `last != bamboo` test is part of the `elif` guard, so control falls
through to the dragon bracket. -/
theorem c6_bamboo_suppression_counterexample :
    ((9/20 : ℚ) ≤ 1/2 ∧ (1/2 : ℚ) < 13/20)
    ∧ (defaultSpawn (1/2) 1000 960 false
        { last_spawn_type := some SpawnTag.bamboo,
          last_bamboo_frame := -999, last_bamboo_x := -99999 }).1 = SpawnTag.dragon
    ∧ (defaultSpawn (1/2) 1000 960 false
        { last_spawn_type := some SpawnTag.bamboo,
          last_bamboo_frame := -999, last_bamboo_x := -99999 }).1 ≠ SpawnTag.rock := by
  refine ⟨⟨by norm_num, by norm_num⟩, ?_, ?_⟩ <;> with_unfolding_all decide

/-- C6 amended: bamboo spawns only when the previous spawn was not bamboo
and both the 240-frame and 300-px cooldowns have elapsed (so bamboo never
repeats within the cooldown window); when the draw selects the bamboo
bracket, an un-elapsed cooldown substitutes a rock, but a bamboo previous
spawn instead falls through to the dragon bracket. -/
theorem c6_amended_bamboo_policy (r : ℚ) (fc : ℤ) (sx : ℚ) (ba : Bool)
    (book : SpawnBook) :
    ((defaultSpawn r fc sx ba book).1 = SpawnTag.bamboo →
      book.last_spawn_type ≠ some SpawnTag.bamboo
      ∧ 240 < fc - book.last_bamboo_frame ∧ 300 < sx - book.last_bamboo_x)
    ∧ (9/20 ≤ r → r < 13/20 → book.last_spawn_type ≠ some SpawnTag.bamboo →
        ¬(240 < fc - book.last_bamboo_frame ∧ 300 < sx - book.last_bamboo_x) →
        (defaultSpawn r fc sx ba book).1 = SpawnTag.rock)
    ∧ (9/20 ≤ r → r < 13/20 → book.last_spawn_type = some SpawnTag.bamboo →
        (defaultSpawn r fc sx ba book).1 = SpawnTag.dragon) := by
  refine ⟨?_, ?_, ?_⟩
  · intro h
    unfold defaultSpawn at h
    dsimp only at h
    split_ifs at h with h1 h2 h3 h4 h5 h6
    exact ⟨h3.2, h4.1, h4.2⟩
  · intro hr1 hr2 hlast hcool
    unfold defaultSpawn
    dsimp only
    rw [if_neg (by linarith : ¬(r < 1/4)), if_neg (by linarith : ¬(r < 9/20)),
        if_pos ⟨hr2, hlast⟩, if_neg hcool]
  · intro hr1 hr2 hlast
    unfold defaultSpawn
    dsimp only
    rw [if_neg (by linarith : ¬(r < 1/4)), if_neg (by linarith : ¬(r < 9/20)),
        if_neg (by simp [hlast] : ¬(r < 13/20 ∧ book.last_spawn_type ≠ some SpawnTag.bamboo)),
        if_pos (by linarith : r < 9/10)]

/-- Witness for C6's amended theorem: bamboo bracket drawn, previous spawn
not bamboo, frame cooldown not yet elapsed — a rock is substituted. -/
theorem c6_amended_bamboo_policy_witness :
    (defaultSpawn (1/2) 100 200 false
      { last_spawn_type := some SpawnTag.rock,
        last_bamboo_frame := 0, last_bamboo_x := 0 }).1 = SpawnTag.rock :=
  (c6_amended_bamboo_policy (1/2) 100 200 false
      { last_spawn_type := some SpawnTag.rock,
        last_bamboo_frame := 0, last_bamboo_x := 0 }).2.1
    (by norm_num) (by norm_num) (by decide) (by with_unfolding_all decide)

/-- `Samurai.update` never changes width, height, duck flag or the
double-jump item. -/
lemma Samurai.update_stance_fields (s : Samurai) :
    (s.update).width = s.width ∧ (s.update).height = s.height
    ∧ (s.update).is_ducking = s.is_ducking
    ∧ (s.update).double_jump_item = s.double_jump_item := by
  unfold Samurai.update
  dsimp only
  repeat' split
  all_goals exact ⟨rfl, rfl, rfl, rfl⟩

/-- `Samurai.update` never sets the airborne flag; it can only clear it. -/
lemma Samurai.update_is_jumping (s : Samurai) :
    (s.update).is_jumping = true → s.is_jumping = true := by
  unfold Samurai.update
  dsimp only
  repeat' split
  all_goals intro h
  all_goals first
    | exact h
    | exact Bool.noConfusion h

/-- Size invariant of the player: width is constant 48; ducking height is
50; standing height is either the post-reset 72 or the restored 90. -/
def sizeInv (s : Samurai) : Prop :=
  s.width = 48 ∧ (s.is_ducking = true → s.height = 50)
  ∧ (s.is_ducking = false → s.height = 72 ∨ s.height = 90)

/-- Reachability invariant: the double-jump item is never held, and the
player is never ducking while airborne. -/
def reachInv (s : Samurai) : Prop :=
  s.double_jump_item = false ∧ (s.is_jumping = true → s.is_ducking = false)

lemma Samurai.duckCancel_of_stand (s : Samurai) (h : s.is_ducking = false) :
    s.duckCancel = s := by
  unfold Samurai.duckCancel
  rw [if_neg (by simp [h])]

lemma Samurai.duckCancel_of_duck (s : Samurai) (h : s.is_ducking = true) :
    s.duckCancel =
      { s with is_ducking := false, height := 90, y := Config.GROUND_Y - 90 } := by
  unfold Samurai.duckCancel
  rw [if_pos h]

lemma sizeInv_applyOp (s : Samurai) (op : Op) (h : sizeInv s) :
    sizeInv (applyOp s op) := by
  obtain ⟨hw, hd, hs⟩ := h
  cases op with
  | jump =>
      show sizeInv (s.jump).1
      unfold Samurai.jump
      cases hduck : s.is_ducking
      · rw [Samurai.duckCancel_of_stand s hduck]
        split
        · exact ⟨hw, hd, hs⟩
        · split
          · exact ⟨hw, hd, hs⟩
          · exact ⟨hw, hd, hs⟩
      · rw [Samurai.duckCancel_of_duck s hduck]
        split
        · exact ⟨hw, fun hx => Bool.noConfusion hx, fun _ => Or.inr rfl⟩
        · split
          · exact ⟨hw, fun hx => Bool.noConfusion hx, fun _ => Or.inr rfl⟩
          · exact ⟨hw, fun hx => Bool.noConfusion hx, fun _ => Or.inr rfl⟩
  | duckOn =>
      show sizeInv (s.duck true)
      unfold Samurai.duck
      split
      · exact ⟨hw, fun _ => rfl, fun hx => Bool.noConfusion hx⟩
      · exact ⟨hw, hd, hs⟩
  | duckOff =>
      show sizeInv (s.duck false)
      unfold Samurai.duck
      split
      · exact ⟨hw, fun hx => Bool.noConfusion hx, fun _ => Or.inr rfl⟩
      · exact ⟨hw, hd, hs⟩
  | physics =>
      show sizeInv s.update
      obtain ⟨ew, eh, ed, _⟩ := Samurai.update_stance_fields s
      exact ⟨by rw [ew]; exact hw, by rw [ed, eh]; exact hd,
             by rw [ed, eh]; exact hs⟩
  | powerBlue => exact ⟨hw, hd, hs⟩
  | powerYellow => exact ⟨hw, hd, hs⟩

lemma reachInv_applyOp (s : Samurai) (op : Op) (h : reachInv s) :
    reachInv (applyOp s op) := by
  obtain ⟨hitem, hjd⟩ := h
  cases op with
  | jump =>
      show reachInv (s.jump).1
      unfold Samurai.jump
      cases hduck : s.is_ducking
      · rw [Samurai.duckCancel_of_stand s hduck]
        split
        · exact ⟨hitem, fun _ => hduck⟩
        · split
          · rename_i hcond
            simp [hitem] at hcond
          · exact ⟨hitem, hjd⟩
      · rw [Samurai.duckCancel_of_duck s hduck]
        split
        · exact ⟨hitem, fun _ => rfl⟩
        · split
          · rename_i hcond
            simp [hitem] at hcond
          · exact ⟨hitem, fun _ => rfl⟩
  | duckOn =>
      show reachInv (s.duck true)
      unfold Samurai.duck
      split
      · rename_i hnj
        exact ⟨hitem, fun hx => absurd hx (by simp [hnj])⟩
      · exact ⟨hitem, hjd⟩
  | duckOff =>
      show reachInv (s.duck false)
      unfold Samurai.duck
      split
      · exact ⟨hitem, fun _ => rfl⟩
      · exact ⟨hitem, hjd⟩
  | physics =>
      show reachInv s.update
      obtain ⟨_, _, ed, eitem⟩ := Samurai.update_stance_fields s
      refine ⟨by rw [eitem]; exact hitem, ?_⟩
      intro hj
      rw [ed]
      exact hjd (Samurai.update_is_jumping s hj)
  | powerBlue => exact ⟨hitem, hjd⟩
  | powerYellow => exact ⟨hitem, hjd⟩

/-- An invariant preserved by every operation holds along any operation
sequence. -/
lemma foldl_preserve {P : Samurai → Prop}
    (hstep : ∀ s op, P s → P (applyOp s op)) :
    ∀ (l : List Op) (s : Samurai), P s → P (l.foldl applyOp s)
  | [], _, h => h
  | op :: l, s, h => foldl_preserve hstep l _ (hstep s op h)

lemma sizeInv_runOps (ops : List Op) : sizeInv (runOps ops) :=
  foldl_preserve sizeInv_applyOp ops Samurai.reset
    ⟨rfl, fun hx => Bool.noConfusion hx, fun _ => Or.inl rfl⟩

lemma reachInv_runOps (ops : List Op) : reachInv (runOps ops) :=
  foldl_preserve reachInv_applyOp ops Samurai.reset
    ⟨rfl, fun hx => Bool.noConfusion hx⟩

/-- C7 counterexample: the freshly reset player and the player after a
duck press-and-release are both standing (not ducking, not airborne) and
have the same width, yet their heights differ (72 vs 90) — refuting that
width and height are determined solely by the stance with a single fixed
standing height. -/
theorem c7_stance_size_counterexample :
    (runOps []).is_ducking = false ∧ (runOps []).is_jumping = false
    ∧ (runOps [Op.duckOn, Op.duckOff]).is_ducking = false
    ∧ (runOps [Op.duckOn, Op.duckOff]).is_jumping = false
    ∧ (runOps []).width = (runOps [Op.duckOn, Op.duckOff]).width
    ∧ (runOps []).height = 72
    ∧ (runOps [Op.duckOn, Op.duckOff]).height = 90
    ∧ (runOps []).height ≠ (runOps [Op.duckOn, Op.duckOff]).height := by
  refine ⟨rfl, rfl, rfl, rfl, ?_, ?_, ?_, ?_⟩ <;> with_unfolding_all decide

/-- C7 amended: in every reachable state the width is the fixed 48 and the
ducking height is the fixed 50, but the standing height is not unique: it
is 72 from reset until the first duck toggle and 90 afterwards; the stance
is locked while airborne (duck requests are ignored). -/
theorem c7_amended_size_by_stance :
    (∀ ops : List Op, sizeInv (runOps ops))
    ∧ (∀ (s : Samurai) (d : Bool), s.is_jumping = true → s.duck d = s) := by
  constructor
  · exact sizeInv_runOps
  · intro s d h
    unfold Samurai.duck
    rw [if_neg (by simp [h])]

/-- Witness for C7's amended theorem: the size invariant after a concrete
duck, and the duck request ignored for a concrete airborne player. -/
theorem c7_amended_size_by_stance_witness :
    sizeInv (runOps [Op.duckOn])
    ∧ { Samurai.reset with is_jumping := true }.duck true =
      { Samurai.reset with is_jumping := true } :=
  ⟨c7_amended_size_by_stance.1 [Op.duckOn],
   c7_amended_size_by_stance.2 { Samurai.reset with is_jumping := true } true rfl⟩

/-- C8: the `jump()` contract — a grounded player gets the primary impulse,
becomes airborne and the dust effect is returned; an airborne player
without the double-jump item (and not ducking, which is unreachable while
airborne) gets a no-op with `vel_y` unchanged; a ducking player has the
duck cancelled (standing height 90, standing position) before the jump is
applied. -/
theorem c8_jump_contract (s : Samurai) :
    (s.is_jumping = false →
      (s.jump).2 = some Effect.dust ∧ (s.jump).1.vel_y = Config.JUMP_FORCE
      ∧ (s.jump).1.is_jumping = true)
    ∧ (s.is_jumping = true → s.double_jump_item = false → s.is_ducking = false →
      s.jump = (s, none))
    ∧ (s.is_ducking = true →
      (s.jump).1.is_ducking = false ∧ (s.jump).1.height = 90
      ∧ (s.jump).1.y = Config.GROUND_Y - 90) := by
  refine ⟨?_, ?_, ?_⟩
  · intro hj
    unfold Samurai.jump
    cases hduck : s.is_ducking
    · rw [Samurai.duckCancel_of_stand s hduck, if_pos hj]
      exact ⟨rfl, rfl, rfl⟩
    · rw [Samurai.duckCancel_of_duck s hduck, if_pos (by simpa using hj)]
      exact ⟨rfl, rfl, rfl⟩
  · intro hj hitem hduck
    unfold Samurai.jump
    rw [Samurai.duckCancel_of_stand s hduck,
        if_neg (by simp [hj]), if_neg (by simp [hitem])]
  · intro hduck
    unfold Samurai.jump
    rw [Samurai.duckCancel_of_duck s hduck]
    split
    · exact ⟨rfl, rfl, rfl⟩
    · split
      · exact ⟨rfl, rfl, rfl⟩
      · exact ⟨rfl, rfl, rfl⟩

/-- Witness for C8 at concrete states: reset (grounded), airborne without
item, and ducking. -/
theorem c8_jump_contract_witness :
    ((Samurai.reset.jump).2 = some Effect.dust
      ∧ (Samurai.reset.jump).1.vel_y = Config.JUMP_FORCE
      ∧ (Samurai.reset.jump).1.is_jumping = true)
    ∧ { Samurai.reset with is_jumping := true }.jump =
        ({ Samurai.reset with is_jumping := true }, none)
    ∧ (({ Samurai.reset with is_ducking := true } : Samurai).jump.1.is_ducking = false
      ∧ ({ Samurai.reset with is_ducking := true } : Samurai).jump.1.height = 90
      ∧ ({ Samurai.reset with is_ducking := true } : Samurai).jump.1.y = Config.GROUND_Y - 90) :=
  ⟨(c8_jump_contract Samurai.reset).1 rfl,
   (c8_jump_contract { Samurai.reset with is_jumping := true }).2.1 rfl rfl rfl,
   (c8_jump_contract { Samurai.reset with is_ducking := true }).2.2 rfl⟩

/-- For any state satisfying the reachability invariant, the sparkle
(double-jump) branch of `jump()` cannot fire, and `jump()` while airborne
is a no-op. -/
lemma jump_no_sparkle (s : Samurai) (h : reachInv s) :
    (s.jump).2 ≠ some Effect.sparkle
    ∧ (s.is_jumping = true → s.jump = (s, none)) := by
  obtain ⟨hitem, hjd⟩ := h
  constructor
  · unfold Samurai.jump
    cases hduck : s.is_ducking
    · rw [Samurai.duckCancel_of_stand s hduck]
      split
      · simp
      · rw [if_neg (by simp [hitem])]
        simp
    · rw [Samurai.duckCancel_of_duck s hduck]
      split
      · simp
      · rw [if_neg (by simp [hitem])]
        simp
  · intro hj
    unfold Samurai.jump
    rw [Samurai.duckCancel_of_stand s (hjd hj),
        if_neg (by simp [hj]), if_neg (by simp [hitem])]

/-- C9: in every reachable state of a session the double-jump item flag is
false — reset initializes it false, `activate_powerup` never sets it and
`jump()` only clears it — hence the sparkle branch of `jump()` is
unreachable and `jump()` while airborne is always a no-op. -/
theorem c9_double_jump_item_never_held (ops : List Op) :
    (runOps ops).double_jump_item = false
    ∧ ((runOps ops).jump).2 ≠ some Effect.sparkle
    ∧ ((runOps ops).is_jumping = true →
        (runOps ops).jump = (runOps ops, none)) :=
  ⟨(reachInv_runOps ops).1,
   (jump_no_sparkle (runOps ops) (reachInv_runOps ops)).1,
   (jump_no_sparkle (runOps ops) (reachInv_runOps ops)).2⟩

/-- Witness for C9 on the concrete session `[jump]`: airborne, item not
held, and a second `jump()` is a no-op. -/
theorem c9_double_jump_item_never_held_witness :
    (runOps [Op.jump]).double_jump_item = false
    ∧ (runOps [Op.jump]).jump = (runOps [Op.jump], none) :=
  ⟨(c9_double_jump_item_never_held [Op.jump]).1,
   (c9_double_jump_item_never_held [Op.jump]).2.2 rfl⟩
